import Mathlib

/-!
Verification development for the Shift Operations portal
(`app.py`, `shift_log.py`, `dashboard.py`): a shallow embedding of the
shift-report persistence model, the session (aggregate) logic, the spares
inventory operations and the two document generators, together with proofs
of the behavioural properties stated in the specification.

Conventions of the embedding:
* SQLite tables become Lean lists of typed rows; `AUTOINCREMENT` ids become
  an explicit `nextReportId` counter (ids are fresh and strictly increasing,
  which is what `AUTOINCREMENT` guarantees).
* Wall-clock times (Python `datetime.time`) become seconds since midnight
  (`ℕ`, always < 86400); minute durations are exact rationals (`ℚ`),
  matching the integer-second arithmetic the Python code performs before
  display rounding.
* A sequence of SQL statements executed on one `sqlite3` connection between
  `connect` and `conn.commit()` forms a single transaction: the statements
  are modelled as data, executed by a transaction runner that either applies
  all of them (the commit) or, if any statement raises, surfaces an error
  and leaves the database unchanged (the implicit rollback when the
  connection is closed without committing).  The Python save handlers have
  no exception handler and exactly one `commit()` at the end, which is what
  this runner reflects.
* Statement failure is abstracted by an oracle `fail : ℕ → Bool` saying
  whether the k-th statement of the transaction raises.
-/

namespace ShiftOps

/-! ## Downtime computation (two entry points) -/

/-- `app.py` `calculate_downtime` (lines 288-291): minutes between two
wall-clock times of the same day, with **no** midnight-rollover correction.
Times are seconds since midnight.  (The Python `if t1 and t2` guard only
excludes missing inputs; both times are always supplied by the form.) -/
def app_calculate_downtime (t1 t2 : ℕ) : ℚ :=
  ((t2 : ℚ) - (t1 : ℚ)) / 60

/-- `shift_log.py` Add Reactive handler (lines 328-329): minutes between the
call time and the back time, adding 1440 minutes when the difference is
negative (midnight rollover). -/
def shiftlog_add_reactive_downtime (t1 t2 : ℕ) : ℚ :=
  if ((t2 : ℚ) - (t1 : ℚ)) / 60 < 0 then ((t2 : ℚ) - (t1 : ℚ)) / 60 + 1440
  else ((t2 : ℚ) - (t1 : ℚ)) / 60

/-! ## Data model: `app.py` (portal with edit support) -/

/-- Header columns of the `reports` table as created/written by `app.py`. -/
structure ReportHeader where
  date : String
  shift : String
  engineer : String
  team_members : String
  site_condition : String
  radios_charged : Bool
  phones_working : Bool
  urgent_notes : String
  other_tasks : String
deriving DecidableEq

/-- A reactive entry held in `st.session_state.reactives` by `app.py`
(keys `Asset`, `Time Called`, `Time Back`, `Fault`, `Engineers`,
`Description`, `Downtime (min)`, `Status`). -/
structure SessionReactive where
  asset : String
  time_called : String
  time_back : String
  fault : String
  engineers : ℕ
  description : String
  downtime : ℚ
  status : String
deriving DecidableEq

/-- A PPM entry held in `st.session_state.ppms` by `app.py`. -/
structure SessionPpm where
  asset : String
  ppm_id : String
  status : String
  comments : String
deriving DecidableEq

/-- A spare entry held in `st.session_state.spares` by `app.py`
(keys `ART #`, `Description`, `Location`, `Category`, `Quantity`,
`Decision`). -/
structure SessionSpare where
  art_number : String
  description : String
  location : String
  category : String
  quantity : ℕ
  decision : String
deriving DecidableEq

/-- Row of the `reactives` table written by `app.py` (includes `status`). -/
structure DbReactive where
  report_id : ℕ
  asset : String
  time_called : String
  time_back : String
  fault : String
  engineers : ℕ
  description : String
  downtime : ℚ
  status : String
deriving DecidableEq

/-- Row of the `ppms` table written by `app.py`. -/
structure DbPpm where
  report_id : ℕ
  asset : String
  ppm_id : String
  status : String
  comments : String
deriving DecidableEq

/-- Row of the `spares` table written by `app.py`. -/
structure DbSpare where
  report_id : ℕ
  art_number : String
  description : String
  location : String
  category : String
  quantity : ℕ
  decision : String
deriving DecidableEq

/-- The SQLite database as seen by `app.py`: the `reports` header table and
the three child tables, plus the `AUTOINCREMENT` counter for report ids. -/
structure AppDb where
  reports : List (ℕ × ReportHeader)
  reactives : List DbReactive
  ppms : List DbPpm
  spares : List DbSpare
  nextReportId : ℕ
deriving DecidableEq

/-- The transient per-session state of `app.py`
(`st.session_state`: the three child lists, the id being edited, and the
run-once guard for the automatic imports). -/
structure AppSession where
  reactives : List SessionReactive
  ppms : List SessionPpm
  spares : List SessionSpare
  editing_report_id : Option ℕ
  carry_over_checked : Bool
deriving DecidableEq

/-- `INSERT INTO reactives (report_id, ...)` — attach the report id to a
session reactive (app.py line 227). -/
def tagReactive (rid : ℕ) (r : SessionReactive) : DbReactive :=
  ⟨rid, r.asset, r.time_called, r.time_back, r.fault, r.engineers,
   r.description, r.downtime, r.status⟩

/-- `INSERT INTO ppms (report_id, ...)` (app.py line 231). -/
def tagPpm (rid : ℕ) (p : SessionPpm) : DbPpm :=
  ⟨rid, p.asset, p.ppm_id, p.status, p.comments⟩

/-- `INSERT INTO spares (report_id, ...)` (app.py line 235). -/
def tagSpare (rid : ℕ) (s : SessionSpare) : DbSpare :=
  ⟨rid, s.art_number, s.description, s.location, s.category, s.quantity,
   s.decision⟩

/-- Read a stored reactive row back into session form
(`load_report_for_editing`, app.py lines 259-264). -/
def untagReactive (r : DbReactive) : SessionReactive :=
  ⟨r.asset, r.time_called, r.time_back, r.fault, r.engineers, r.description,
   r.downtime, r.status⟩

/-- Read a stored PPM row back into session form (app.py lines 269-272). -/
def untagPpm (p : DbPpm) : SessionPpm :=
  ⟨p.asset, p.ppm_id, p.status, p.comments⟩

/-- Read a stored spare row back into session form (app.py lines 277-281). -/
def untagSpare (s : DbSpare) : SessionSpare :=
  ⟨s.art_number, s.description, s.location, s.category, s.quantity,
   s.decision⟩

/-! ## `app.py` save transaction -/

/-- One SQL statement issued by `save_report_to_db` (app.py lines 199-240). -/
inductive AppStmt where
  | updateReportHeader (rid : ℕ) (h : ReportHeader)
  | deleteReactives (rid : ℕ)
  | deletePpms (rid : ℕ)
  | deleteSpares (rid : ℕ)
  | insertReport (h : ReportHeader)
  | insertReactive (rid : ℕ) (r : SessionReactive)
  | insertPpm (rid : ℕ) (p : SessionPpm)
  | insertSpare (rid : ℕ) (s : SessionSpare)
deriving DecidableEq

/-- Effect of a single statement on the database.  `UPDATE ... WHERE id=?`
rewrites the matching header rows (and is a no-op when the id is absent,
exactly as in SQL); `DELETE ... WHERE report_id=?` filters the child table;
inserts append, and inserting a report consumes the next `AUTOINCREMENT`
id (`c.lastrowid`). -/
def execStmt : AppStmt → AppDb → AppDb
  | .updateReportHeader rid h, db =>
      { db with reports := db.reports.map (fun p => if p.1 = rid then (rid, h) else p) }
  | .deleteReactives rid, db =>
      { db with reactives := db.reactives.filter (fun r => r.report_id != rid) }
  | .deletePpms rid, db =>
      { db with ppms := db.ppms.filter (fun p => p.report_id != rid) }
  | .deleteSpares rid, db =>
      { db with spares := db.spares.filter (fun s => s.report_id != rid) }
  | .insertReport h, db =>
      { db with reports := db.reports ++ [(db.nextReportId, h)],
                nextReportId := db.nextReportId + 1 }
  | .insertReactive rid r, db =>
      { db with reactives := db.reactives ++ [tagReactive rid r] }
  | .insertPpm rid p, db =>
      { db with ppms := db.ppms ++ [tagPpm rid p] }
  | .insertSpare rid s, db =>
      { db with spares := db.spares ++ [tagSpare rid s] }

/-- The statement sequence `save_report_to_db` executes, together with the
report id the children are attached to.  When `editing_report_id` is set the
header is updated and all child rows are deleted before re-inserting
(app.py lines 204-215); otherwise a fresh header row is inserted and
`rid = c.lastrowid` (lines 216-223).  Report ids are ≥ 1, so the Python
truthiness test `if st.session_state.editing_report_id` coincides with an
`Option` match. -/
def save_stmts (editing : Option ℕ) (hdr : ReportHeader) (sess : AppSession)
    (db : AppDb) : List AppStmt × ℕ :=
  match editing with
  | some rid =>
      ([.updateReportHeader rid hdr, .deleteReactives rid, .deletePpms rid,
        .deleteSpares rid]
        ++ sess.reactives.map (AppStmt.insertReactive rid)
        ++ sess.ppms.map (AppStmt.insertPpm rid)
        ++ sess.spares.map (AppStmt.insertSpare rid), rid)
  | none =>
      let rid := db.nextReportId
      ([AppStmt.insertReport hdr]
        ++ sess.reactives.map (AppStmt.insertReactive rid)
        ++ sess.ppms.map (AppStmt.insertPpm rid)
        ++ sess.spares.map (AppStmt.insertSpare rid), rid)

/-- Transaction runner: execute the statements in order on the working state;
if the k-th statement raises (per the oracle `fail`), the exception
propagates and nothing is committed.  Returns the committed state, or `none`
when the transaction aborted. -/
def runTxnAux {σ α : Type} (exec : α → σ → σ) (fail : ℕ → Bool) :
    List α → ℕ → σ → Option σ
  | [], _, cur => some cur
  | s :: rest, k, cur =>
      if fail k then none else runTxnAux exec fail rest (k + 1) (exec s cur)

/-- `save_report_to_db(report_data)` (app.py lines 199-240): build the
statement list, run it as one transaction (single `conn.commit()` at the
end, no exception handler).  Result: optional propagated error, the database
visible after the call (unchanged on error — the connection is closed
without committing), and the report id. -/
def save_report_to_db (fail : ℕ → Bool) (hdr : ReportHeader)
    (sess : AppSession) (db : AppDb) : Option String × AppDb × ℕ :=
  match runTxnAux execStmt fail (save_stmts sess.editing_report_id hdr sess db).1 0 db with
  | some db2 => (none, db2, (save_stmts sess.editing_report_id hdr sess db).2)
  | none => (some "OperationalError", db, (save_stmts sess.editing_report_id hdr sess db).2)

/-- Database state after a (successful) save. -/
def saveDb (fail : ℕ → Bool) (hdr : ReportHeader) (sess : AppSession)
    (db : AppDb) : AppDb :=
  (save_report_to_db fail hdr sess db).2.1

/-- Report id assigned by a save. -/
def saveRid (fail : ℕ → Bool) (hdr : ReportHeader) (sess : AppSession)
    (db : AppDb) : ℕ :=
  (save_report_to_db fail hdr sess db).2.2

/-- The statement oracle for a run in which no statement fails. -/
def noFail : ℕ → Bool := fun _ => false

/-- `load_report_for_editing(report_id)` (app.py lines 242-284): if the
header row exists, repopulate the session lists from the three child tables
(`SELECT * FROM ... WHERE report_id=?`) and mark the session as editing that
report; otherwise return `none` (the Python function returns `False`). -/
def load_report_for_editing (rid : ℕ) (db : AppDb) (s : AppSession) :
    Option AppSession :=
  match db.reports.find? (fun p => p.1 == rid) with
  | none => none
  | some _ =>
      some { s with
        editing_report_id := some rid,
        reactives :=
          (db.reactives.filter (fun r => r.report_id == rid)).map untagReactive,
        ppms := (db.ppms.filter (fun p => p.report_id == rid)).map untagPpm,
        spares := (db.spares.filter (fun s => s.report_id == rid)).map untagSpare }

/-- Database well-formedness maintained by the system: every child row
refers to an already-allocated report id (ids are allocated by
`AUTOINCREMENT`, so all stored ids are below the next fresh one). -/
def WfAppDb (db : AppDb) : Prop :=
  (∀ r ∈ db.reactives, r.report_id < db.nextReportId) ∧
  (∀ p ∈ db.ppms, p.report_id < db.nextReportId) ∧
  (∀ s ∈ db.spares, s.report_id < db.nextReportId)

instance (db : AppDb) : Decidable (WfAppDb db) := by
  unfold WfAppDb; infer_instance

/-! ## `app.py` automatic session population (carry-over and smart PPMs) -/

/-- `check_carry_over_tasks()` (app.py lines 139-161): select every stored
reactive whose status is not `Complete` — across all reports — and turn it
into a session entry whose description is prefixed with the carry-over
marker. -/
def check_carry_over_tasks (db : AppDb) : List SessionReactive :=
  (db.reactives.filter (fun r => r.status != "Complete")).map fun r =>
    ⟨r.asset, r.time_called, r.time_back, r.fault, r.engineers,
     "[CARRY OVER] " ++ r.description, r.downtime, r.status⟩

/-- A row of the PPM schedule file (`data/ppm_schedule.csv`). -/
structure PpmScheduleRow where
  asset : String
  day : String
  task_description : String
deriving DecidableEq

/-- `check_smart_ppms()` (app.py lines 115-137): schedule rows whose day
matches today or `Daily`, as PPM session entries defaulting to
`In Progress` / `Auto-scheduled`. -/
def check_smart_ppms (sched : List PpmScheduleRow) (today : String) :
    List SessionPpm :=
  (sched.filter (fun r => r.day == today || r.day == "Daily")).map fun r =>
    ⟨r.asset, r.task_description, "In Progress", "Auto-scheduled"⟩

/-- The auto-logic block of `show_shift_log` (app.py lines 335-349): when the
session has not yet run it and is not editing an existing report, extend the
reactive list with the carry-over tasks and the PPM list with today's
scheduled tasks, then set the run-once guard. -/
def show_shift_log_auto (db : AppDb) (sched : List PpmScheduleRow)
    (today : String) (s : AppSession) : AppSession :=
  if s.carry_over_checked = false ∧ s.editing_report_id = none then
    { s with
      reactives := s.reactives ++ check_carry_over_tasks db,
      ppms := s.ppms ++ check_smart_ppms sched today,
      carry_over_checked := true }
  else s

/-! ## Data model: `shift_log.py` (entry app) and the spares inventory -/

/-- Header columns of the `reports` table as written by `shift_log.py`. -/
structure ShiftLogHeader where
  date : String
  shift : String
  engineer : String
  second_engineer : String
  urgent_notes : String
  radios_charged : Bool
  phones_working : Bool
  keys_handed : Bool
  safety_check : Bool
deriving DecidableEq

/-- A reactive entry of the `shift_log.py` session (no status field). -/
structure ShiftSessionReactive where
  asset : String
  fault : String
  time_called : String
  time_back : String
  downtime : ℚ
  engineers : ℕ
  description : String
deriving DecidableEq

/-- A PPM entry of the `shift_log.py` session (keys `Asset`, `Status`,
`Comments`). -/
structure ShiftSessionPpm where
  asset : String
  status : String
  comments : String
deriving DecidableEq

/-- An `other_tasks` entry of the `shift_log.py` session. -/
structure ShiftSessionOther where
  category : String
  status : String
  comments : String
deriving DecidableEq

/-- A spare entry of the `shift_log.py` session (keys `ART #`,
`Description`, `Location`, `Quantity`, `Category Code`, `Decision`). -/
structure ShiftSessionSpare where
  art_number : String
  description : String
  location : String
  quantity : ℕ
  category_code : ℕ
  decision : String
deriving DecidableEq

/-- Row of the `reactives` table written by `shift_log.py` (no status). -/
structure SlDbReactive where
  report_id : ℕ
  asset : String
  time_called : String
  time_back : String
  fault : String
  engineers : ℕ
  description : String
  downtime : ℚ
deriving DecidableEq

/-- Row of the `ppms` table of `shift_log.py`'s schema (the table is created
by `init_db` but the save handler never writes to it). -/
structure SlDbPpm where
  report_id : ℕ
  asset : String
  ppm_id : String
  status : String
  comments : String
deriving DecidableEq

/-- Row of the `spares_used` table. -/
structure SpareUsageRow where
  report_id : ℕ
  art_number : String
  description : String
  location : String
  quantity : ℕ
  decision : String
  category_code : ℕ
deriving DecidableEq

/-- Row of the `spares_inventory` table (primary key `art_number`).
`stock_level` is a SQLite INTEGER and may go negative under decrements. -/
structure InventoryItem where
  art_number : String
  description : String
  location : String
  category : String
  stock_level : ℤ
  min_stock_level : ℤ
deriving DecidableEq

/-- The SQLite database as seen by `shift_log.py`. -/
structure ShiftDb where
  reports : List (ℕ × ShiftLogHeader)
  reactives : List SlDbReactive
  ppms : List SlDbPpm
  spares_used : List SpareUsageRow
  spares_inventory : List InventoryItem
  nextReportId : ℕ
deriving DecidableEq

/-- The transient session of `shift_log.py`. -/
structure ShiftSession where
  reactives : List ShiftSessionReactive
  ppms : List ShiftSessionPpm
  other_tasks : List ShiftSessionOther
  spares : List ShiftSessionSpare
deriving DecidableEq

/-- `INSERT INTO reactives ...` (shift_log.py lines 394-396). -/
def slTagReactive (rid : ℕ) (r : ShiftSessionReactive) : SlDbReactive :=
  ⟨rid, r.asset, r.time_called, r.time_back, r.fault, r.engineers,
   r.description, r.downtime⟩

/-- `INSERT INTO spares_used ...` (shift_log.py lines 398-400). -/
def slTagSpare (rid : ℕ) (s : ShiftSessionSpare) : SpareUsageRow :=
  ⟨rid, s.art_number, s.description, s.location, s.quantity, s.decision,
   s.category_code⟩

/-- `UPDATE spares_inventory SET stock_level = stock_level - ? WHERE
art_number = ?` (shift_log.py line 401): decrement every row whose part
number matches (at most one, the key is primary); rows with other part
numbers — and the whole table when the part is absent — are untouched, and
no error is raised either way. -/
def adjust_stock (p : String) (q : ℤ) (inv : List InventoryItem) :
    List InventoryItem :=
  inv.map fun i =>
    if i.art_number = p then { i with stock_level := i.stock_level - q } else i

/-- One SQL statement issued by the SAVE REPORT handler of `shift_log.py`
(lines 387-404). -/
inductive SlStmt where
  | insertReport (h : ShiftLogHeader)
  | insertReactive (rid : ℕ) (r : ShiftSessionReactive)
  | insertSpareUsed (rid : ℕ) (s : ShiftSessionSpare)
  | adjustInventory (p : String) (q : ℕ)
deriving DecidableEq

/-- Effect of a single `shift_log.py` statement on the database.  Note that
no statement of the save handler touches the `ppms` table. -/
def execSlStmt : SlStmt → ShiftDb → ShiftDb
  | .insertReport h, db =>
      { db with reports := db.reports ++ [(db.nextReportId, h)],
                nextReportId := db.nextReportId + 1 }
  | .insertReactive rid r, db =>
      { db with reactives := db.reactives ++ [slTagReactive rid r] }
  | .insertSpareUsed rid s, db =>
      { db with spares_used := db.spares_used ++ [slTagSpare rid s] }
  | .adjustInventory p q, db =>
      { db with spares_inventory := adjust_stock p (q : ℤ) db.spares_inventory }

/-- The statement sequence of the SAVE REPORT handler (shift_log.py lines
387-404): insert the header (`rid = c.lastrowid`), insert each session
reactive, then for each session spare insert a usage row and decrement the
inventory.  The session PPM list is not written anywhere. -/
def sl_save_stmts (hdr : ShiftLogHeader) (sess : ShiftSession) (db : ShiftDb) :
    List SlStmt × ℕ :=
  let rid := db.nextReportId
  ([SlStmt.insertReport hdr]
    ++ sess.reactives.map (SlStmt.insertReactive rid)
    ++ (sess.spares.map (fun s =>
          [SlStmt.insertSpareUsed rid s,
           SlStmt.adjustInventory s.art_number s.quantity])).flatten, rid)

/-- The SAVE REPORT handler's database write (shift_log.py lines 387-404),
run as one transaction with a single `conn.commit()` at the end and no
exception handler. -/
def shiftlog_save_report (fail : ℕ → Bool) (hdr : ShiftLogHeader)
    (sess : ShiftSession) (db : ShiftDb) : Option String × ShiftDb × ℕ :=
  match runTxnAux execSlStmt fail (sl_save_stmts hdr sess db).1 0 db with
  | some db2 => (none, db2, (sl_save_stmts hdr sess db).2)
  | none => (some "OperationalError", db, (sl_save_stmts hdr sess db).2)

/-- The two statements the save handler issues for one spare usage record:
insert into `spares_used`, then decrement the matching inventory row
(shift_log.py lines 398-401). -/
def shiftlog_save_spare (rid : ℕ) (s : ShiftSessionSpare) (db : ShiftDb) :
    ShiftDb :=
  execSlStmt (.adjustInventory s.art_number s.quantity)
    (execSlStmt (.insertSpareUsed rid s) db)

/-! ## Spares inventory reload from the CSV catalog -/

/-- A row of the spares catalog (`data/spares.csv`) after column extraction:
`p_num` falls back to the string `UNKNOWN` when the part-number column is
missing and to `nan` when the cell is empty (the `str()` of a pandas NaN),
which the loader skips. -/
structure CsvSpareRow where
  part_number : String
  description : String
  location : String
deriving DecidableEq

/-- The skip test of `reload_spares_from_csv` (shift_log.py line 132). -/
def csvRowValid (r : CsvSpareRow) : Bool :=
  r.part_number != "UNKNOWN" && r.part_number != "nan"

/-- `INSERT OR REPLACE INTO spares_inventory ...`: a conflicting row (same
primary key) is deleted and the new row inserted; no `IntegrityError` is
raised. -/
def insert_or_replace_inventory (it : InventoryItem)
    (inv : List InventoryItem) : List InventoryItem :=
  inv.filter (fun j => j.art_number != it.art_number) ++ [it]

/-- Outcome of `reload_spares_from_csv`: the rebuilt inventory, the number
of executed inserts (`count`), and the `duplicates` counter (incremented
only in the unreachable `except sqlite3.IntegrityError` branch). -/
structure ReloadResult where
  inventory : List InventoryItem
  count : ℕ
  duplicates : ℕ
deriving DecidableEq

/-- One loop iteration of `reload_spares_from_csv` (shift_log.py lines
127-141): skip invalid part numbers, otherwise insert-or-replace the row
with the fixed defaults `category='General'`, `stock_level=10`,
`min_stock_level=2` and bump `count`.  `INSERT OR REPLACE` resolves a
duplicate key by overwriting, so the `IntegrityError` handler never runs
and `duplicates` is never incremented. -/
def reload_step (acc : ReloadResult) (r : CsvSpareRow) : ReloadResult :=
  if csvRowValid r then
    { acc with
      inventory := insert_or_replace_inventory
        ⟨r.part_number, r.description, r.location, "General", 10, 2⟩
        acc.inventory,
      count := acc.count + 1 }
  else acc

/-- `reload_spares_from_csv()` (shift_log.py lines 111-148): `DELETE FROM
spares_inventory` (the previous inventory is discarded entirely), then
process every catalog row. -/
def reload_spares_from_csv (rows : List CsvSpareRow)
    (_old_inventory : List InventoryItem) : ReloadResult :=
  rows.foldl reload_step ⟨[], 0, 0⟩

/-- Following the spec's words: the number of replaced duplicates during an
inventory import — valid catalog rows whose part number already occurred in
an earlier valid row (the count the success message is supposed to
surface). -/
def specDuplicateCount : List CsvSpareRow → List String → ℕ
  | [], _ => 0
  | r :: rest, seen =>
      if csvRowValid r then
        (if seen.contains r.part_number then 1 else 0)
          + specDuplicateCount rest (r.part_number :: seen)
      else specDuplicateCount rest seen

/-! ## Low-stock detection (dashboard) -/

/-- The low-stock filter of the Spares Inventory tab (dashboard.py line
106): rows whose stock level is at or below the minimum stock level. -/
def low_stock (inv : List InventoryItem) : List InventoryItem :=
  inv.filter (fun i => i.stock_level ≤ i.min_stock_level)

/-! ## Document generators -/

/-- A cell value written into the workbook. -/
inductive XVal where
  | s (v : String)
  | n (v : ℕ)
  | q (v : ℚ)
deriving DecidableEq

/-- Python `round(x, 2)` on the exact rational value. -/
def round2 (x : ℚ) : ℚ := (round (x * 100) : ℤ) / 100

/-- The checkbox glyph used by the workbook (shift_log.py line 178). -/
def checkboxGlyph (b : Bool) : String := if b then "☑" else "☐"

/-- Header block of the workbook (shift_log.py lines 163-180): engineer
cells, handover notes, and the four check rows. -/
def excelHeaderCells (h : ShiftLogHeader) : List (ℕ × ℕ × XVal) :=
  [(1, 1, XVal.s "Engineer:"), (1, 2, XVal.s h.engineer),
   (1, 3, XVal.s h.second_engineer),
   (1, 5, XVal.s ("HANDOVER NOTES:\n" ++ h.urgent_notes)),
   (3, 1, XVal.s "RADIO CHECK"), (3, 2, XVal.s (checkboxGlyph h.radios_charged)),
   (4, 1, XVal.s "PHONES HANDED"), (4, 2, XVal.s (checkboxGlyph h.phones_working)),
   (5, 1, XVal.s "KEYS HANDED"), (5, 2, XVal.s (checkboxGlyph h.keys_handed)),
   (6, 1, XVal.s "SAFETY OK"), (6, 2, XVal.s (checkboxGlyph h.safety_check))]

/-- Column headers of the reactive-tasks table, written at row 9
unconditionally (shift_log.py lines 187-190). -/
def excelReactiveHeaderCells : List (ℕ × ℕ × XVal) :=
  [(9, 1, XVal.s "Time Called"), (9, 2, XVal.s "Time Back"),
   (9, 3, XVal.s "Asset"), (9, 4, XVal.s "Fault"), (9, 5, XVal.s "Comment"),
   (9, 6, XVal.s "Engs"), (9, 7, XVal.s "Man Hrs"), (9, 8, XVal.s "DT Hrs")]

/-- Data rows of the reactive-tasks table (shift_log.py lines 192-197):
one row per entry, downtime converted to hours, labour hours = downtime
hours × engineer count, both rounded to two decimals. -/
def excelReactiveRows : ℕ → List ShiftSessionReactive → List (ℕ × ℕ × XVal)
  | _, [] => []
  | row, r :: rest =>
      [(row, 1, XVal.s r.time_called), (row, 2, XVal.s r.time_back),
       (row, 3, XVal.s r.asset), (row, 4, XVal.s r.fault),
       (row, 5, XVal.s r.description), (row, 6, XVal.n r.engineers),
       (row, 7, XVal.q (round2 (r.downtime / 60 * r.engineers))),
       (row, 8, XVal.q (round2 (r.downtime / 60)))]
        ++ excelReactiveRows (row + 1) rest

/-- Data rows of the PPM table (shift_log.py lines 203-207). -/
def excelPpmRows : ℕ → List ShiftSessionPpm → List (ℕ × ℕ × XVal)
  | _, [] => []
  | row, p :: rest =>
      [(row, 1, XVal.s p.asset), (row, 2, XVal.s p.status),
       (row, 3, XVal.s p.comments)]
        ++ excelPpmRows (row + 1) rest

/-- First header row of the spares table (shift_log.py lines 213-216). -/
def excelSpareHeads1 (row : ℕ) : List (ℕ × ℕ × XVal) :=
  [(row, 1, XVal.s "ART #"), (row, 2, XVal.s "LOCATION"),
   (row, 3, XVal.s "DESC"), (row, 4, XVal.s "CATEGORY"),
   (row, 5, XVal.s "REASON")]

/-- Second header row of the spares table, columns 6-9 (lines 219-222). -/
def excelSpareHeads2 (row : ℕ) : List (ℕ × ℕ × XVal) :=
  [(row, 6, XVal.s "QTY"), (row, 7, XVal.s "NAME"), (row, 8, XVal.s "DATE"),
   (row, 9, XVal.s "DECISION")]

/-- Data rows of the spares table, two workbook rows per entry
(shift_log.py lines 225-232). -/
def excelSpareRows (h : ShiftLogHeader) :
    ℕ → List ShiftSessionSpare → List (ℕ × ℕ × XVal)
  | _, [] => []
  | row, s :: rest =>
      [(row, 1, XVal.s s.art_number), (row, 2, XVal.s s.location),
       (row, 3, XVal.s s.description), (row, 4, XVal.n s.category_code),
       (row, 5, XVal.s "Wear Part"),
       (row + 1, 6, XVal.n s.quantity), (row + 1, 7, XVal.s h.engineer),
       (row + 1, 8, XVal.s h.date), (row + 1, 9, XVal.s s.decision)]
        ++ excelSpareRows h (row + 2) rest

/-- `generate_excel_report` (shift_log.py lines 151-237), as the sequence of
cell writes `(row, column, value)`.  The section titles and the column
header rows are written unconditionally; only the data rows depend on the
child lists.  The running row counter of the source is reproduced by the
offsets: data rows start at 10, the PPM title lands two rows below the last
reactive row, etc.  Styling, merges and the workbook container are
cosmetic and omitted. -/
def generate_excel_report (h : ShiftLogHeader)
    (reactives : List ShiftSessionReactive) (ppms : List ShiftSessionPpm)
    (_otherTasks : List ShiftSessionOther)
    (spares : List ShiftSessionSpare) : List (ℕ × ℕ × XVal) :=
  excelHeaderCells h
    ++ [(8, 1, XVal.s "Reactive Tasks")]
    ++ excelReactiveHeaderCells
    ++ excelReactiveRows 10 reactives
    ++ [(12 + reactives.length, 1, XVal.s "PPM Tasks")]
    ++ excelPpmRows (13 + reactives.length) ppms
    ++ [(15 + reactives.length + ppms.length, 1, XVal.s "Spares Used")]
    ++ excelSpareHeads1 (16 + reactives.length + ppms.length)
    ++ excelSpareHeads2 (17 + reactives.length + ppms.length)
    ++ excelSpareRows h (18 + reactives.length + ppms.length) spares

/-- An element of the paginated (PDF) document. -/
inductive PdfElem where
  | para (text : String)
  | table (rows : List (List String))
  | spacer
  | pageBreak
deriving DecidableEq

/-- `generate_pdf_report` of `app.py` (lines 293-320): title, shift-details
section, and — only when the reactive list is non-empty — the reactive-tasks
section (title paragraph and table).  `shift_data` is the Python dict as a
key/value list; the keys `reactives`, `ppms`, `spares` are excluded from the
details table. -/
def app_generate_pdf (editingId : Option ℕ) (shift_data : List (String × String))
    (reactives : List SessionReactive) : List PdfElem :=
  [PdfElem.para ("SHIFT REPORT #" ++
      (match editingId with | some n => toString n | none => "NEW")),
   PdfElem.para "SHIFT DETAILS",
   PdfElem.table ((shift_data.filter (fun kv =>
        !(["reactives", "ppms", "spares"].contains kv.1))).map
      (fun kv => [kv.1, kv.2]))]
  ++ (if reactives.isEmpty then []
      else
        [PdfElem.para ("REACTIVE TASKS (" ++ toString reactives.length ++ ")"),
         PdfElem.table ([["Asset", "Fault", "Status", "Downtime"]]
           ++ reactives.map (fun r =>
                [r.asset, r.fault, r.status, toString r.downtime]))])

/-! ## Concrete fixtures used by witnesses and counterexamples -/

/-- An `app.py` report header fixture. -/
def hdr0 : ReportHeader :=
  ⟨"2026-10-10", "Day Shift", "John Smith", "", "Normal", true, true, "N/A",
   "N/A"⟩

/-- A `shift_log.py` report header fixture. -/
def slhdr0 : ShiftLogHeader :=
  ⟨"2026-10-10", "Day", "Chris McGhee", "", "", true, true, true, true⟩

/-- A fresh, empty `app.py` session. -/
def sess0 : AppSession := ⟨[], [], [], none, false⟩

/-- An empty `app.py` database (first `AUTOINCREMENT` id is 1). -/
def emptyAppDb : AppDb := ⟨[], [], [], [], 1⟩

/-- An empty `shift_log.py` database. -/
def emptyShiftDb : ShiftDb := ⟨[], [], [], [], [], 1⟩

/-- A session reactive fixture. -/
def react1 : SessionReactive :=
  ⟨"Conveyor #1", "08:00:00", "08:45:00", "Electrical", 1, "jam", 45,
   "Complete"⟩

/-- A second session reactive fixture. -/
def react2 : SessionReactive :=
  ⟨"Palletiser #1", "10:00:00", "10:30:00", "Mechanical", 2, "belt", 30,
   "In Progress"⟩

/-- A session PPM fixture. -/
def ppm1 : SessionPpm := ⟨"Conveyor #1", "PPM-7", "Complete", ""⟩

/-- A second session PPM fixture. -/
def ppm2 : SessionPpm := ⟨"Forklift #1", "PPM-9", "Complete", "ok"⟩

/-- A session spare fixture. -/
def spare1 : SessionSpare := ⟨"P1", "bearing", "A1", "Gen", 2, "Used"⟩

/-- A second session spare fixture. -/
def spare2 : SessionSpare := ⟨"P2", "belt", "B2", "Gen", 1, "Quarantined"⟩

/-- An `app.py` session holding one entry of each child type, not editing. -/
def sessA : AppSession := ⟨[react1, react2], [ppm1], [spare1], none, false⟩

/-- A `shift_log.py` session whose PPM list is non-empty. -/
def slsess0 : ShiftSession :=
  ⟨[], [⟨"Conveyor 1", "Complete", "greased"⟩], [], []⟩

/-- A `shift_log.py` session spare fixture. -/
def slspare1 : ShiftSessionSpare := ⟨"P1", "bearing", "A1", 3, 2, "Disposed"⟩

/-- An inventory fixture: parts `P1` and `P2` in stock. -/
def inv0 : List InventoryItem :=
  [⟨"P1", "bearing", "A1", "General", 10, 2⟩,
   ⟨"P2", "belt", "B2", "General", 5, 2⟩]

/-- A `shift_log.py` database fixture carrying `inv0`. -/
def shiftDb0 : ShiftDb := ⟨[], [], [], [], inv0, 1⟩

/-- An `app.py` database fixture holding one saved report with id 1. -/
def dbOneReport : AppDb := ⟨[(1, hdr0)], [], [], [], 2⟩

/-- A session editing report 1 with child set A. -/
def sessEditA : AppSession := ⟨[react1], [ppm1], [spare1], some 1, true⟩

/-- A session editing report 1 with child set B, disjoint from A. -/
def sessEditB : AppSession := ⟨[react2], [ppm2], [spare2], some 1, true⟩

/-- An `app.py` database fixture with one complete and one open stored
reactive task. -/
def dbCarry : AppDb :=
  ⟨[(1, hdr0)],
   [⟨1, "Conveyor #1", "08:00:00", "08:45:00", "Electrical", 1, "jam", 45,
     "Complete"⟩,
    ⟨1, "Palletiser #1", "10:00:00", "10:30:00", "Mechanical", 2, "belt", 30,
     "In Progress"⟩],
   [], [], 2⟩

/-- A PPM schedule fixture. -/
def schedDaily : List PpmScheduleRow := [⟨"Conveyor #1", "Daily", "grease"⟩]

/-- A catalog fixture with a duplicated part number (`P1` twice). -/
def csvDup : List CsvSpareRow :=
  [⟨"P1", "d1", "l1"⟩, ⟨"P1", "d2", "l2"⟩]

/-- A catalog fixture with one valid and one invalid row. -/
def csvMixed : List CsvSpareRow :=
  [⟨"P1", "bearing", "A1"⟩, ⟨"nan", "x", "y"⟩]

/-! ## Generic list lemmas about keyed rows -/

theorem filter_bne_beq_eq_nil {α : Type} (f : α → ℕ) (rid : ℕ) (l : List α) :
    ((l.filter fun x => f x != rid).filter fun x => f x == rid) = [] := by
  induction l with
  | nil => rfl
  | cons a l ih => by_cases h : f a = rid <;> simp [List.filter_cons, h, ih]

theorem filter_bne_idem {α : Type} (f : α → ℕ) (rid : ℕ) (l : List α) :
    ((l.filter fun x => f x != rid).filter fun x => f x != rid)
      = l.filter fun x => f x != rid := by
  induction l with
  | nil => rfl
  | cons a l ih => by_cases h : f a = rid <;> simp [List.filter_cons, h, ih]

theorem filter_beq_eq_nil_of_lt {α : Type} (f : α → ℕ) (n : ℕ) :
    ∀ l : List α, (∀ x ∈ l, f x < n) → (l.filter fun x => f x == n) = []
  | [], _ => rfl
  | a :: l, h => by
    have ha : (f a == n) = false := by
      have hne : f a ≠ n := Nat.ne_of_lt (h a (List.mem_cons_self a l))
      simp [hne]
    rw [List.filter_cons, ha]
    simp only [Bool.false_eq_true, if_false]
    exact filter_beq_eq_nil_of_lt f n l fun x hx => h x (List.mem_cons_of_mem a hx)

theorem filter_beq_map_eq_self {α β : Type} (f : β → ℕ) (g : α → β) (rid : ℕ)
    (hg : ∀ a, f (g a) = rid) (l : List α) :
    ((l.map g).filter fun x => f x == rid) = l.map g := by
  induction l with
  | nil => rfl
  | cons a l ih => simp [List.filter_cons, hg a, ih]

theorem filter_bne_map_eq_nil {α β : Type} (f : β → ℕ) (g : α → β) (rid : ℕ)
    (hg : ∀ a, f (g a) = rid) (l : List α) :
    ((l.map g).filter fun x => f x != rid) = [] := by
  induction l with
  | nil => rfl
  | cons a l ih => simp [List.filter_cons, hg a, ih]

/-! ## Round-trip between session rows and stored rows -/

theorem untag_tag_reactive (rid : ℕ) (r : SessionReactive) :
    untagReactive (tagReactive rid r) = r := rfl

theorem untag_tag_ppm (rid : ℕ) (p : SessionPpm) :
    untagPpm (tagPpm rid p) = p := rfl

theorem untag_tag_spare (rid : ℕ) (s : SessionSpare) :
    untagSpare (tagSpare rid s) = s := rfl

theorem map_untag_tag_reactive (rid : ℕ) (l : List SessionReactive) :
    ((l.map (tagReactive rid)).map untagReactive) = l := by
  induction l with
  | nil => rfl
  | cons a l ih => simp only [List.map_cons, ih]; rfl

theorem map_untag_tag_ppm (rid : ℕ) (l : List SessionPpm) :
    ((l.map (tagPpm rid)).map untagPpm) = l := by
  induction l with
  | nil => rfl
  | cons a l ih => simp only [List.map_cons, ih]; rfl

theorem map_untag_tag_spare (rid : ℕ) (l : List SessionSpare) :
    ((l.map (tagSpare rid)).map untagSpare) = l := by
  induction l with
  | nil => rfl
  | cons a l ih => simp only [List.map_cons, ih]; rfl

theorem tagReactive_inj (rid : ℕ) {x y : SessionReactive}
    (h : tagReactive rid x = tagReactive rid y) : x = y := by
  have := congrArg untagReactive h
  simpa [untag_tag_reactive] using this

theorem tagPpm_inj (rid : ℕ) {x y : SessionPpm}
    (h : tagPpm rid x = tagPpm rid y) : x = y := by
  have := congrArg untagPpm h
  simpa [untag_tag_ppm] using this

theorem tagSpare_inj (rid : ℕ) {x y : SessionSpare}
    (h : tagSpare rid x = tagSpare rid y) : x = y := by
  have := congrArg untagSpare h
  simpa [untag_tag_spare] using this

/-! ## Transaction runner lemmas -/

theorem runTxnAux_noFail {σ α : Type} (exec : α → σ → σ) (l : List α) (k : ℕ)
    (d : σ) :
    runTxnAux exec noFail l k d = some (l.foldl (fun a s => exec s a) d) := by
  induction l generalizing k d with
  | nil => rfl
  | cons s rest ih => simp [runTxnAux, noFail, ih, List.foldl_cons]

theorem runTxnAux_ok {σ α : Type} (exec : α → σ → σ) (fail : ℕ → Bool) :
    ∀ (l : List α) (k : ℕ) (d d2 : σ),
      runTxnAux exec fail l k d = some d2 →
      d2 = l.foldl (fun a s => exec s a) d
  | [], k, d, d2, h => by
    simp only [runTxnAux, Option.some.injEq] at h
    exact h.symm
  | s :: rest, k, d, d2, h => by
    simp only [runTxnAux] at h
    by_cases hf : fail k = true
    · rw [if_pos hf] at h
      exact absurd h (by simp)
    · rw [if_neg hf] at h
      rw [List.foldl_cons]
      exact runTxnAux_ok exec fail rest (k + 1) (exec s d) d2 h

/-! ## Explicit form of the `app.py` save transaction -/

theorem foldl_insertReactive (rid : ℕ) (rs : List SessionReactive) (d : AppDb) :
    (rs.map (AppStmt.insertReactive rid)).foldl (fun a s => execStmt s a) d
      = { d with reactives := d.reactives ++ rs.map (tagReactive rid) } := by
  induction rs generalizing d with
  | nil => simp
  | cons r rs ih =>
    rw [List.map_cons, List.foldl_cons, ih]
    simp [execStmt, List.append_assoc]

theorem foldl_insertPpm (rid : ℕ) (ps : List SessionPpm) (d : AppDb) :
    (ps.map (AppStmt.insertPpm rid)).foldl (fun a s => execStmt s a) d
      = { d with ppms := d.ppms ++ ps.map (tagPpm rid) } := by
  induction ps generalizing d with
  | nil => simp
  | cons p ps ih =>
    rw [List.map_cons, List.foldl_cons, ih]
    simp [execStmt, List.append_assoc]

theorem foldl_insertSpare (rid : ℕ) (ss : List SessionSpare) (d : AppDb) :
    (ss.map (AppStmt.insertSpare rid)).foldl (fun a s => execStmt s a) d
      = { d with spares := d.spares ++ ss.map (tagSpare rid) } := by
  induction ss generalizing d with
  | nil => simp
  | cons s ss ih =>
    rw [List.map_cons, List.foldl_cons, ih]
    simp [execStmt, List.append_assoc]

/-- The committed state of an update save (`editing_report_id` set):
header rewritten in place, each child table cleared of the report's rows
and the session rows appended. -/
theorem save_foldl_update (rid : ℕ) (hdr : ReportHeader) (sess : AppSession)
    (db : AppDb) :
    ((save_stmts (some rid) hdr sess db).1).foldl (fun a s => execStmt s a) db
      = { db with
          reports := db.reports.map (fun p => if p.1 = rid then (rid, hdr) else p),
          reactives := db.reactives.filter (fun r => r.report_id != rid)
            ++ sess.reactives.map (tagReactive rid),
          ppms := db.ppms.filter (fun p => p.report_id != rid)
            ++ sess.ppms.map (tagPpm rid),
          spares := db.spares.filter (fun s => s.report_id != rid)
            ++ sess.spares.map (tagSpare rid) } := by
  have hs : (save_stmts (some rid) hdr sess db).1
      = [AppStmt.updateReportHeader rid hdr, AppStmt.deleteReactives rid,
         AppStmt.deletePpms rid, AppStmt.deleteSpares rid]
        ++ sess.reactives.map (AppStmt.insertReactive rid)
        ++ sess.ppms.map (AppStmt.insertPpm rid)
        ++ sess.spares.map (AppStmt.insertSpare rid) := rfl
  rw [hs, List.foldl_append, List.foldl_append, List.foldl_append,
      foldl_insertSpare, foldl_insertPpm, foldl_insertReactive]
  rfl

/-- The committed state of a create save: fresh header row appended with the
next id, session rows appended to the child tables. -/
theorem save_foldl_create (hdr : ReportHeader) (sess : AppSession)
    (db : AppDb) :
    ((save_stmts none hdr sess db).1).foldl (fun a s => execStmt s a) db
      = { db with
          reports := db.reports ++ [(db.nextReportId, hdr)],
          reactives := db.reactives
            ++ sess.reactives.map (tagReactive db.nextReportId),
          ppms := db.ppms ++ sess.ppms.map (tagPpm db.nextReportId),
          spares := db.spares ++ sess.spares.map (tagSpare db.nextReportId),
          nextReportId := db.nextReportId + 1 } := by
  have hs : (save_stmts none hdr sess db).1
      = [AppStmt.insertReport hdr]
        ++ sess.reactives.map (AppStmt.insertReactive db.nextReportId)
        ++ sess.ppms.map (AppStmt.insertPpm db.nextReportId)
        ++ sess.spares.map (AppStmt.insertSpare db.nextReportId) := rfl
  rw [hs, List.foldl_append, List.foldl_append, List.foldl_append,
      foldl_insertSpare, foldl_insertPpm, foldl_insertReactive]
  rfl

/-! ## Normalisation of the rollover-aware downtime entry point -/

/-- The `shift_log.py` Add Reactive downtime lies in `[0, 1440)` for all
same-day wall-clock inputs, and equal times give 0. -/
theorem shiftlog_downtime_normalized (t1 t2 : ℕ) (h1 : t1 < 86400)
    (h2 : t2 < 86400) :
    0 ≤ shiftlog_add_reactive_downtime t1 t2 ∧
    shiftlog_add_reactive_downtime t1 t2 < 1440 ∧
    (t1 = t2 → shiftlog_add_reactive_downtime t1 t2 = 0) := by
  have h1q : (t1 : ℚ) < 86400 := by exact_mod_cast h1
  have h2q : (t2 : ℚ) < 86400 := by exact_mod_cast h2
  have h0a : (0 : ℚ) ≤ (t1 : ℚ) := by positivity
  have h0b : (0 : ℚ) ≤ (t2 : ℚ) := by positivity
  unfold shiftlog_add_reactive_downtime
  split_ifs with h
  · refine ⟨by linarith, by linarith, fun he => ?_⟩
    rw [he] at h
    simp at h
  · push_neg at h
    refine ⟨h, by linarith, fun he => ?_⟩
    rw [he]
    ring

/-! ## Closed forms of a failure-free `app.py` save -/

theorem save_noFail_eq (hdr : ReportHeader) (sess : AppSession) (db : AppDb) :
    save_report_to_db noFail hdr sess db
      = (none,
         ((save_stmts sess.editing_report_id hdr sess db).1).foldl
           (fun a s => execStmt s a) db,
         (save_stmts sess.editing_report_id hdr sess db).2) := by
  unfold save_report_to_db
  rw [runTxnAux_noFail]

theorem save_update_eq (rid : ℕ) (hdr : ReportHeader) (sess : AppSession)
    (db : AppDb) (he : sess.editing_report_id = some rid) :
    save_report_to_db noFail hdr sess db
      = (none,
         { db with
           reports := db.reports.map (fun p => if p.1 = rid then (rid, hdr) else p),
           reactives := db.reactives.filter (fun r => r.report_id != rid)
             ++ sess.reactives.map (tagReactive rid),
           ppms := db.ppms.filter (fun p => p.report_id != rid)
             ++ sess.ppms.map (tagPpm rid),
           spares := db.spares.filter (fun s => s.report_id != rid)
             ++ sess.spares.map (tagSpare rid) }, rid) := by
  rw [save_noFail_eq, he, save_foldl_update]
  rfl

theorem save_create_eq (hdr : ReportHeader) (sess : AppSession) (db : AppDb)
    (he : sess.editing_report_id = none) :
    save_report_to_db noFail hdr sess db
      = (none,
         { db with
           reports := db.reports ++ [(db.nextReportId, hdr)],
           reactives := db.reactives
             ++ sess.reactives.map (tagReactive db.nextReportId),
           ppms := db.ppms ++ sess.ppms.map (tagPpm db.nextReportId),
           spares := db.spares ++ sess.spares.map (tagSpare db.nextReportId),
           nextReportId := db.nextReportId + 1 }, db.nextReportId) := by
  rw [save_noFail_eq, he, save_foldl_create]
  rfl

theorem saveDb_update (rid : ℕ) (hdr : ReportHeader) (sess : AppSession)
    (db : AppDb) (he : sess.editing_report_id = some rid) :
    saveDb noFail hdr sess db
      = { db with
          reports := db.reports.map (fun p => if p.1 = rid then (rid, hdr) else p),
          reactives := db.reactives.filter (fun r => r.report_id != rid)
            ++ sess.reactives.map (tagReactive rid),
          ppms := db.ppms.filter (fun p => p.report_id != rid)
            ++ sess.ppms.map (tagPpm rid),
          spares := db.spares.filter (fun s => s.report_id != rid)
            ++ sess.spares.map (tagSpare rid) } := by
  unfold saveDb
  rw [save_update_eq rid hdr sess db he]

theorem saveDb_create (hdr : ReportHeader) (sess : AppSession) (db : AppDb)
    (he : sess.editing_report_id = none) :
    saveDb noFail hdr sess db
      = { db with
          reports := db.reports ++ [(db.nextReportId, hdr)],
          reactives := db.reactives
            ++ sess.reactives.map (tagReactive db.nextReportId),
          ppms := db.ppms ++ sess.ppms.map (tagPpm db.nextReportId),
          spares := db.spares ++ sess.spares.map (tagSpare db.nextReportId),
          nextReportId := db.nextReportId + 1 } := by
  unfold saveDb
  rw [save_create_eq hdr sess db he]

theorem saveRid_update (rid : ℕ) (hdr : ReportHeader) (sess : AppSession)
    (db : AppDb) (he : sess.editing_report_id = some rid) :
    saveRid noFail hdr sess db = rid := by
  unfold saveRid
  rw [save_update_eq rid hdr sess db he]

theorem saveRid_create (hdr : ReportHeader) (sess : AppSession) (db : AppDb)
    (he : sess.editing_report_id = none) :
    saveRid noFail hdr sess db = db.nextReportId := by
  unfold saveRid
  rw [save_create_eq hdr sess db he]

/-! ## Children of a report after a failure-free save -/

theorem update_children_reactives (rid : ℕ) (hdr : ReportHeader)
    (sess : AppSession) (db : AppDb) (he : sess.editing_report_id = some rid) :
    (saveDb noFail hdr sess db).reactives.filter (fun r => r.report_id == rid)
      = sess.reactives.map (tagReactive rid) := by
  rw [saveDb_update rid hdr sess db he]
  show ((db.reactives.filter _ ++ _).filter _) = _
  rw [List.filter_append,
      filter_bne_beq_eq_nil DbReactive.report_id rid db.reactives,
      filter_beq_map_eq_self DbReactive.report_id (tagReactive rid) rid
        (fun _ => rfl) sess.reactives,
      List.nil_append]

theorem update_children_ppms (rid : ℕ) (hdr : ReportHeader)
    (sess : AppSession) (db : AppDb) (he : sess.editing_report_id = some rid) :
    (saveDb noFail hdr sess db).ppms.filter (fun p => p.report_id == rid)
      = sess.ppms.map (tagPpm rid) := by
  rw [saveDb_update rid hdr sess db he]
  show ((db.ppms.filter _ ++ _).filter _) = _
  rw [List.filter_append,
      filter_bne_beq_eq_nil DbPpm.report_id rid db.ppms,
      filter_beq_map_eq_self DbPpm.report_id (tagPpm rid) rid
        (fun _ => rfl) sess.ppms,
      List.nil_append]

theorem update_children_spares (rid : ℕ) (hdr : ReportHeader)
    (sess : AppSession) (db : AppDb) (he : sess.editing_report_id = some rid) :
    (saveDb noFail hdr sess db).spares.filter (fun s => s.report_id == rid)
      = sess.spares.map (tagSpare rid) := by
  rw [saveDb_update rid hdr sess db he]
  show ((db.spares.filter _ ++ _).filter _) = _
  rw [List.filter_append,
      filter_bne_beq_eq_nil DbSpare.report_id rid db.spares,
      filter_beq_map_eq_self DbSpare.report_id (tagSpare rid) rid
        (fun _ => rfl) sess.spares,
      List.nil_append]

theorem create_children_reactives (hdr : ReportHeader) (sess : AppSession)
    (db : AppDb) (he : sess.editing_report_id = none)
    (hwf : ∀ r ∈ db.reactives, r.report_id < db.nextReportId) :
    (saveDb noFail hdr sess db).reactives.filter
        (fun r => r.report_id == db.nextReportId)
      = sess.reactives.map (tagReactive db.nextReportId) := by
  rw [saveDb_create hdr sess db he]
  show ((db.reactives ++ _).filter _) = _
  rw [List.filter_append,
      filter_beq_eq_nil_of_lt DbReactive.report_id db.nextReportId
        db.reactives hwf,
      filter_beq_map_eq_self DbReactive.report_id (tagReactive db.nextReportId)
        db.nextReportId (fun _ => rfl) sess.reactives,
      List.nil_append]

theorem create_children_ppms (hdr : ReportHeader) (sess : AppSession)
    (db : AppDb) (he : sess.editing_report_id = none)
    (hwf : ∀ p ∈ db.ppms, p.report_id < db.nextReportId) :
    (saveDb noFail hdr sess db).ppms.filter
        (fun p => p.report_id == db.nextReportId)
      = sess.ppms.map (tagPpm db.nextReportId) := by
  rw [saveDb_create hdr sess db he]
  show ((db.ppms ++ _).filter _) = _
  rw [List.filter_append,
      filter_beq_eq_nil_of_lt DbPpm.report_id db.nextReportId db.ppms hwf,
      filter_beq_map_eq_self DbPpm.report_id (tagPpm db.nextReportId)
        db.nextReportId (fun _ => rfl) sess.ppms,
      List.nil_append]

theorem create_children_spares (hdr : ReportHeader) (sess : AppSession)
    (db : AppDb) (he : sess.editing_report_id = none)
    (hwf : ∀ s ∈ db.spares, s.report_id < db.nextReportId) :
    (saveDb noFail hdr sess db).spares.filter
        (fun s => s.report_id == db.nextReportId)
      = sess.spares.map (tagSpare db.nextReportId) := by
  rw [saveDb_create hdr sess db he]
  show ((db.spares ++ _).filter _) = _
  rw [List.filter_append,
      filter_beq_eq_nil_of_lt DbSpare.report_id db.nextReportId db.spares hwf,
      filter_beq_map_eq_self DbSpare.report_id (tagSpare db.nextReportId)
        db.nextReportId (fun _ => rfl) sess.spares,
      List.nil_append]

/-! ## The saved header row is found again -/

theorem find_header_update (rid : ℕ) (hdr : ReportHeader) (sess : AppSession)
    (db : AppDb) (he : sess.editing_report_id = some rid) (h0 : ReportHeader)
    (hmem : (rid, h0) ∈ db.reports) :
    ∃ q, (saveDb noFail hdr sess db).reports.find? (fun p => p.1 == rid)
      = some q := by
  rw [saveDb_update rid hdr sess db he]
  cases hf : List.find? (fun p => p.1 == rid)
      (db.reports.map fun p => if p.1 = rid then (rid, hdr) else p) with
  | some q => exact ⟨q, rfl⟩
  | none =>
    exfalso
    have hmem2 : (rid, hdr) ∈
        db.reports.map (fun p => if p.1 = rid then (rid, hdr) else p) :=
      List.mem_map.2 ⟨(rid, h0), hmem, by simp⟩
    have := List.find?_eq_none.mp hf _ hmem2
    simp at this

theorem find_header_create (hdr : ReportHeader) (sess : AppSession)
    (db : AppDb) (he : sess.editing_report_id = none) :
    ∃ q, (saveDb noFail hdr sess db).reports.find?
      (fun p => p.1 == db.nextReportId) = some q := by
  rw [saveDb_create hdr sess db he]
  cases hf : List.find? (fun p => p.1 == db.nextReportId)
      (db.reports ++ [(db.nextReportId, hdr)]) with
  | some q => exact ⟨q, rfl⟩
  | none =>
    exfalso
    have hmem2 : (db.nextReportId, hdr) ∈ db.reports ++ [(db.nextReportId, hdr)] :=
      List.mem_append_right _ (by simp)
    have := List.find?_eq_none.mp hf _ hmem2
    simp at this

/-- Computation of `load_report_for_editing` when the header row resolves. -/
theorem load_eq_some (rid : ℕ) (db : AppDb) (s0 : AppSession)
    (q : ℕ × ReportHeader)
    (hq : db.reports.find? (fun p => p.1 == rid) = some q) :
    load_report_for_editing rid db s0
      = some { s0 with
          editing_report_id := some rid,
          reactives := (db.reactives.filter (fun r => r.report_id == rid)).map
            untagReactive,
          ppms := (db.ppms.filter (fun p => p.report_id == rid)).map untagPpm,
          spares := (db.spares.filter (fun s => s.report_id == rid)).map
            untagSpare } := by
  unfold load_report_for_editing
  rw [hq]

/-- Saving (create or update) and immediately loading the saved report for
edit repopulates the session lists with exactly the saved child lists. -/
theorem load_after_save (hdr : ReportHeader) (sess s0 : AppSession)
    (db : AppDb) (hwf : WfAppDb db)
    (hed : ∀ rid, sess.editing_report_id = some rid →
      ∃ h0, (rid, h0) ∈ db.reports) :
    load_report_for_editing (saveRid noFail hdr sess db)
        (saveDb noFail hdr sess db) s0
      = some { s0 with
          editing_report_id := some (saveRid noFail hdr sess db),
          reactives := sess.reactives,
          ppms := sess.ppms,
          spares := sess.spares } := by
  cases hcase : sess.editing_report_id with
  | some rid =>
    obtain ⟨h0, hmem⟩ := hed rid hcase
    obtain ⟨q, hq⟩ := find_header_update rid hdr sess db hcase h0 hmem
    rw [saveRid_update rid hdr sess db hcase, load_eq_some rid _ s0 q hq,
        update_children_reactives rid hdr sess db hcase,
        update_children_ppms rid hdr sess db hcase,
        update_children_spares rid hdr sess db hcase,
        map_untag_tag_reactive, map_untag_tag_ppm, map_untag_tag_spare]
  | none =>
    obtain ⟨q, hq⟩ := find_header_create hdr sess db hcase
    rw [saveRid_create hdr sess db hcase, load_eq_some _ _ s0 q hq,
        create_children_reactives hdr sess db hcase hwf.1,
        create_children_ppms hdr sess db hcase hwf.2.1,
        create_children_spares hdr sess db hcase hwf.2.2,
        map_untag_tag_reactive, map_untag_tag_ppm, map_untag_tag_spare]

/-! ## Claim theorems: C1, C6, C3, C4 -/

/-- Claim C1 (code bug in `app.py`): the claim demands the midnight-rollover
normalisation of downtime into `[0, 1440)` at every entry point.  The
`shift_log.py` Add Reactive entry point normalises (23:30 → 00:15 gives 45
minutes), but `app.py`'s `calculate_downtime` does not: at the same failing
input it returns −1395 minutes, which is negative. -/
theorem c1_downtime_rollover_missing_in_app :
    shiftlog_add_reactive_downtime (23 * 3600 + 30 * 60) (15 * 60) = 45 ∧
    app_calculate_downtime (23 * 3600 + 30 * 60) (15 * 60) = -1395 ∧
    ¬ 0 ≤ app_calculate_downtime (23 * 3600 + 30 * 60) (15 * 60) := by
  refine ⟨?_, ?_, ?_⟩ <;>
    norm_num [shiftlog_add_reactive_downtime, app_calculate_downtime]

/-- Claim C6: low-stock detection returns exactly the inventory rows with
`stock_level ≤ min_stock_level`, over every inventory state, and the
equality boundary is included (an item at exactly its minimum appears). -/
theorem c6_low_stock_exact :
    (∀ (inv : List InventoryItem) (i : InventoryItem),
        i ∈ low_stock inv ↔ i ∈ inv ∧ i.stock_level ≤ i.min_stock_level) ∧
    (⟨"A", "a", "l", "General", 2, 5⟩ : InventoryItem) ∈
      low_stock [⟨"A", "a", "l", "General", 2, 5⟩] ∧
    (⟨"B", "b", "l", "General", 5, 5⟩ : InventoryItem) ∈
      low_stock [⟨"B", "b", "l", "General", 5, 5⟩] := by
  refine ⟨fun inv i => ?_, by decide, by decide⟩
  simp [low_stock, List.mem_filter]

/-- Claim C3: saving a report from the session's child lists and loading it
back for edit repopulates the session with an equivalent set of child rows —
equal as multisets and with equal counts per child type — hence independent
of the insertion order within each type. -/
theorem c3_save_then_load_equiv (hdr : ReportHeader) (sess s0 : AppSession)
    (db : AppDb) (hwf : WfAppDb db)
    (hed : ∀ rid, sess.editing_report_id = some rid →
      ∃ h0, (rid, h0) ∈ db.reports) :
    ∃ s2 : AppSession,
      load_report_for_editing (saveRid noFail hdr sess db)
          (saveDb noFail hdr sess db) s0 = some s2 ∧
      (s2.reactives : Multiset SessionReactive) = (sess.reactives : Multiset _) ∧
      s2.reactives.length = sess.reactives.length ∧
      (s2.ppms : Multiset SessionPpm) = (sess.ppms : Multiset _) ∧
      s2.ppms.length = sess.ppms.length ∧
      (s2.spares : Multiset SessionSpare) = (sess.spares : Multiset _) ∧
      s2.spares.length = sess.spares.length := by
  refine ⟨_, load_after_save hdr sess s0 db hwf hed, rfl, rfl, rfl, rfl, rfl, rfl⟩

/-- Witness for C3 at a concrete database and session. -/
theorem c3_save_then_load_equiv_witness :
    ∃ s2 : AppSession,
      load_report_for_editing (saveRid noFail hdr0 sessA emptyAppDb)
          (saveDb noFail hdr0 sessA emptyAppDb) sess0 = some s2 ∧
      (s2.reactives : Multiset SessionReactive) = (sessA.reactives : Multiset _) ∧
      s2.reactives.length = sessA.reactives.length ∧
      (s2.ppms : Multiset SessionPpm) = (sessA.ppms : Multiset _) ∧
      s2.ppms.length = sessA.ppms.length ∧
      (s2.spares : Multiset SessionSpare) = (sessA.spares : Multiset _) ∧
      s2.spares.length = sessA.spares.length :=
  c3_save_then_load_equiv hdr0 sessA sess0 emptyAppDb (by decide)
    (fun _ h => Option.noConfusion h)

/-- Claim C4: updating a report's children first with set A and then with a
disjoint set B leaves exactly B's rows associated with the report in all
three child tables, with no residue from A. -/
theorem c4_replace_children_disjoint (db : AppDb) (rid : ℕ)
    (hA hB : ReportHeader) (sA sB : AppSession)
    (_heA : sA.editing_report_id = some rid)
    (heB : sB.editing_report_id = some rid)
    (hdR : ∀ x ∈ sA.reactives, x ∉ sB.reactives)
    (hdP : ∀ x ∈ sA.ppms, x ∉ sB.ppms)
    (hdS : ∀ x ∈ sA.spares, x ∉ sB.spares) :
    ((saveDb noFail hB sB (saveDb noFail hA sA db)).reactives.filter
        (fun r => r.report_id == rid) = sB.reactives.map (tagReactive rid) ∧
     (saveDb noFail hB sB (saveDb noFail hA sA db)).ppms.filter
        (fun p => p.report_id == rid) = sB.ppms.map (tagPpm rid) ∧
     (saveDb noFail hB sB (saveDb noFail hA sA db)).spares.filter
        (fun s => s.report_id == rid) = sB.spares.map (tagSpare rid)) ∧
    ((∀ x ∈ sA.reactives, tagReactive rid x ∉
        (saveDb noFail hB sB (saveDb noFail hA sA db)).reactives.filter
          (fun r => r.report_id == rid)) ∧
     (∀ x ∈ sA.ppms, tagPpm rid x ∉
        (saveDb noFail hB sB (saveDb noFail hA sA db)).ppms.filter
          (fun p => p.report_id == rid)) ∧
     (∀ x ∈ sA.spares, tagSpare rid x ∉
        (saveDb noFail hB sB (saveDb noFail hA sA db)).spares.filter
          (fun s => s.report_id == rid))) := by
  have h1 := update_children_reactives rid hB sB (saveDb noFail hA sA db) heB
  have h2 := update_children_ppms rid hB sB (saveDb noFail hA sA db) heB
  have h3 := update_children_spares rid hB sB (saveDb noFail hA sA db) heB
  refine ⟨⟨h1, h2, h3⟩, ?_, ?_, ?_⟩
  · intro x hx hmem
    rw [h1] at hmem
    obtain ⟨y, hy, hxy⟩ := List.mem_map.1 hmem
    exact hdR x hx (tagReactive_inj rid hxy ▸ hy)
  · intro x hx hmem
    rw [h2] at hmem
    obtain ⟨y, hy, hxy⟩ := List.mem_map.1 hmem
    exact hdP x hx (tagPpm_inj rid hxy ▸ hy)
  · intro x hx hmem
    rw [h3] at hmem
    obtain ⟨y, hy, hxy⟩ := List.mem_map.1 hmem
    exact hdS x hx (tagSpare_inj rid hxy ▸ hy)

/-- Witness for C4 at a concrete database, report id 1 and concrete disjoint
child sets. -/
theorem c4_replace_children_disjoint_witness :
    ((saveDb noFail hdr0 sessEditB (saveDb noFail hdr0 sessEditA dbOneReport)).reactives.filter
        (fun r => r.report_id == 1) = sessEditB.reactives.map (tagReactive 1) ∧
     (saveDb noFail hdr0 sessEditB (saveDb noFail hdr0 sessEditA dbOneReport)).ppms.filter
        (fun p => p.report_id == 1) = sessEditB.ppms.map (tagPpm 1) ∧
     (saveDb noFail hdr0 sessEditB (saveDb noFail hdr0 sessEditA dbOneReport)).spares.filter
        (fun s => s.report_id == 1) = sessEditB.spares.map (tagSpare 1)) ∧
    ((∀ x ∈ sessEditA.reactives, tagReactive 1 x ∉
        (saveDb noFail hdr0 sessEditB (saveDb noFail hdr0 sessEditA dbOneReport)).reactives.filter
          (fun r => r.report_id == 1)) ∧
     (∀ x ∈ sessEditA.ppms, tagPpm 1 x ∉
        (saveDb noFail hdr0 sessEditB (saveDb noFail hdr0 sessEditA dbOneReport)).ppms.filter
          (fun p => p.report_id == 1)) ∧
     (∀ x ∈ sessEditA.spares, tagSpare 1 x ∉
        (saveDb noFail hdr0 sessEditB (saveDb noFail hdr0 sessEditA dbOneReport)).spares.filter
          (fun s => s.report_id == 1))) :=
  c4_replace_children_disjoint dbOneReport 1 hdr0 hdr0 sessEditA sessEditB
    rfl rfl (by decide) (by decide) (by decide)

/-! ## Closed form of the `shift_log.py` save transaction -/

theorem sl_foldl_insertReactive (rid : ℕ) (rs : List ShiftSessionReactive)
    (d : ShiftDb) :
    (rs.map (SlStmt.insertReactive rid)).foldl (fun a s => execSlStmt s a) d
      = { d with reactives := d.reactives ++ rs.map (slTagReactive rid) } := by
  induction rs generalizing d with
  | nil => simp
  | cons r rs ih =>
    rw [List.map_cons, List.foldl_cons, ih]
    simp [execSlStmt, List.append_assoc]

theorem sl_foldl_spares (rid : ℕ) (ss : List ShiftSessionSpare) (d : ShiftDb) :
    ((ss.map (fun s => [SlStmt.insertSpareUsed rid s,
        SlStmt.adjustInventory s.art_number s.quantity])).flatten).foldl
        (fun a s => execSlStmt s a) d
      = { d with
          spares_used := d.spares_used ++ ss.map (slTagSpare rid),
          spares_inventory := ss.foldl
            (fun inv s => adjust_stock s.art_number (s.quantity : ℤ) inv)
            d.spares_inventory } := by
  induction ss generalizing d with
  | nil => simp
  | cons s ss ih =>
    rw [List.map_cons, List.flatten_cons, List.foldl_append, ih]
    simp [List.foldl_cons, List.foldl_nil, execSlStmt, List.append_assoc]

theorem sl_save_foldl (hdr : ShiftLogHeader) (sess : ShiftSession)
    (db : ShiftDb) :
    ((sl_save_stmts hdr sess db).1).foldl (fun a s => execSlStmt s a) db
      = { db with
          reports := db.reports ++ [(db.nextReportId, hdr)],
          reactives := db.reactives
            ++ sess.reactives.map (slTagReactive db.nextReportId),
          spares_used := db.spares_used
            ++ sess.spares.map (slTagSpare db.nextReportId),
          spares_inventory := sess.spares.foldl
            (fun inv s => adjust_stock s.art_number (s.quantity : ℤ) inv)
            db.spares_inventory,
          nextReportId := db.nextReportId + 1 } := by
  have hs : (sl_save_stmts hdr sess db).1
      = [SlStmt.insertReport hdr]
        ++ sess.reactives.map (SlStmt.insertReactive db.nextReportId)
        ++ (sess.spares.map (fun s =>
              [SlStmt.insertSpareUsed db.nextReportId s,
               SlStmt.adjustInventory s.art_number s.quantity])).flatten := rfl
  rw [hs, List.foldl_append, List.foldl_append, sl_foldl_spares,
      sl_foldl_insertReactive]
  rfl

/-! ## Claim C2 -/

/-- Claim C2 (corrected): each save handler runs as one transaction, so
either everything it writes commits together or a failure is surfaced as a
hard error with the store unchanged.  In `app.py`'s `save_report_to_db` the
committed rows include the header and all three child lists; in
`shift_log.py`'s SAVE handler they include the header, the reactives and the
spares — but the session PPM list is never persisted (`db2.ppms` is
unchanged), which is what forces the correction of the claim. -/
theorem c2_atomic_save (fail fail2 : ℕ → Bool) (hdr : ReportHeader)
    (sess : AppSession) (db : AppDb) (slhdr : ShiftLogHeader)
    (slsess : ShiftSession) (sldb : ShiftDb)
    (hed : ∀ rid, sess.editing_report_id = some rid →
      ∃ h0, (rid, h0) ∈ db.reports) :
    ((∃ db2 rid, save_report_to_db fail hdr sess db = (none, db2, rid) ∧
        (rid, hdr) ∈ db2.reports ∧
        (∀ r ∈ sess.reactives, tagReactive rid r ∈ db2.reactives) ∧
        (∀ p ∈ sess.ppms, tagPpm rid p ∈ db2.ppms) ∧
        (∀ s ∈ sess.spares, tagSpare rid s ∈ db2.spares)) ∨
      (∃ msg rid, save_report_to_db fail hdr sess db = (some msg, db, rid))) ∧
    ((∃ db2 rid, shiftlog_save_report fail2 slhdr slsess sldb = (none, db2, rid) ∧
        (rid, slhdr) ∈ db2.reports ∧
        (∀ r ∈ slsess.reactives, slTagReactive rid r ∈ db2.reactives) ∧
        (∀ s ∈ slsess.spares, slTagSpare rid s ∈ db2.spares_used) ∧
        db2.ppms = sldb.ppms) ∨
      (∃ msg rid, shiftlog_save_report fail2 slhdr slsess sldb
        = (some msg, sldb, rid))) := by
  constructor
  · cases hrun : runTxnAux execStmt fail
        (save_stmts sess.editing_report_id hdr sess db).1 0 db with
    | none =>
      right
      exact ⟨"OperationalError", (save_stmts sess.editing_report_id hdr sess db).2,
        by unfold save_report_to_db; rw [hrun]⟩
    | some db2 =>
      left
      have hdb2 := runTxnAux_ok execStmt fail _ 0 db db2 hrun
      have hsave : save_report_to_db fail hdr sess db
          = (none, db2, (save_stmts sess.editing_report_id hdr sess db).2) := by
        unfold save_report_to_db; rw [hrun]
      cases hcase : sess.editing_report_id with
      | some rid =>
        rw [hcase] at hdb2 hsave
        rw [save_foldl_update] at hdb2
        subst hdb2
        obtain ⟨h0, hmem⟩ := hed rid hcase
        refine ⟨_, rid, hsave, ?_, ?_, ?_, ?_⟩
        · exact List.mem_map.2 ⟨(rid, h0), hmem, by simp⟩
        · intro r hr
          exact List.mem_append_right _ (List.mem_map_of_mem _ hr)
        · intro p hp
          exact List.mem_append_right _ (List.mem_map_of_mem _ hp)
        · intro s hs
          exact List.mem_append_right _ (List.mem_map_of_mem _ hs)
      | none =>
        rw [hcase] at hdb2 hsave
        rw [save_foldl_create] at hdb2
        subst hdb2
        refine ⟨_, db.nextReportId, hsave, ?_, ?_, ?_, ?_⟩
        · exact List.mem_append_right _ (by simp)
        · intro r hr
          exact List.mem_append_right _ (List.mem_map_of_mem _ hr)
        · intro p hp
          exact List.mem_append_right _ (List.mem_map_of_mem _ hp)
        · intro s hs
          exact List.mem_append_right _ (List.mem_map_of_mem _ hs)
  · cases hrun : runTxnAux execSlStmt fail2 (sl_save_stmts slhdr slsess sldb).1
        0 sldb with
    | none =>
      right
      exact ⟨"OperationalError", (sl_save_stmts slhdr slsess sldb).2,
        by unfold shiftlog_save_report; rw [hrun]⟩
    | some db2 =>
      left
      have hdb2 := runTxnAux_ok execSlStmt fail2 _ 0 sldb db2 hrun
      have hsave : shiftlog_save_report fail2 slhdr slsess sldb
          = (none, db2, (sl_save_stmts slhdr slsess sldb).2) := by
        unfold shiftlog_save_report; rw [hrun]
      rw [sl_save_foldl] at hdb2
      subst hdb2
      refine ⟨_, sldb.nextReportId, hsave, ?_, ?_, ?_, rfl⟩
      · exact List.mem_append_right _ (by simp)
      · intro r hr
        exact List.mem_append_right _ (List.mem_map_of_mem _ hr)
      · intro s hs
        exact List.mem_append_right _ (List.mem_map_of_mem _ hs)

/-- Counterexample to C2 as stated: the `shift_log.py` SAVE handler commits
the header row while never committing the session's PPM child rows.  At a
session holding one PPM entry the save succeeds and the `ppms` table stays
empty — so it is not the case that the header row and all child rows
(reactives, PPMs, spares) commit together or not at all. -/
theorem c2_counterexample_ppms_not_saved :
    (shiftlog_save_report noFail slhdr0 slsess0 emptyShiftDb).1 = none ∧
    ((shiftlog_save_report noFail slhdr0 slsess0 emptyShiftDb).2.2, slhdr0)
      ∈ (shiftlog_save_report noFail slhdr0 slsess0 emptyShiftDb).2.1.reports ∧
    slsess0.ppms ≠ [] ∧
    (shiftlog_save_report noFail slhdr0 slsess0 emptyShiftDb).2.1.ppms = [] := by
  refine ⟨rfl, by decide, by decide, rfl⟩

/-- Witness for C2's amended statement at concrete inputs. -/
theorem c2_atomic_save_witness :
    ((∃ db2 rid, save_report_to_db noFail hdr0 sessA emptyAppDb = (none, db2, rid) ∧
        (rid, hdr0) ∈ db2.reports ∧
        (∀ r ∈ sessA.reactives, tagReactive rid r ∈ db2.reactives) ∧
        (∀ p ∈ sessA.ppms, tagPpm rid p ∈ db2.ppms) ∧
        (∀ s ∈ sessA.spares, tagSpare rid s ∈ db2.spares)) ∨
      (∃ msg rid, save_report_to_db noFail hdr0 sessA emptyAppDb
        = (some msg, emptyAppDb, rid))) ∧
    ((∃ db2 rid, shiftlog_save_report noFail slhdr0 slsess0 emptyShiftDb
        = (none, db2, rid) ∧
        (rid, slhdr0) ∈ db2.reports ∧
        (∀ r ∈ slsess0.reactives, slTagReactive rid r ∈ db2.reactives) ∧
        (∀ s ∈ slsess0.spares, slTagSpare rid s ∈ db2.spares_used) ∧
        db2.ppms = emptyShiftDb.ppms) ∨
      (∃ msg rid, shiftlog_save_report noFail slhdr0 slsess0 emptyShiftDb
        = (some msg, emptyShiftDb, rid))) :=
  c2_atomic_save noFail noFail hdr0 sessA emptyAppDb slhdr0 slsess0
    emptyShiftDb (fun _ h => Option.noConfusion h)

/-! ## Inventory decrement lemmas -/

theorem find_adjust_stock (p : String) (q : ℤ) (inv : List InventoryItem) :
    List.find? (fun i => i.art_number == p) (adjust_stock p q inv)
      = (List.find? (fun i => i.art_number == p) inv).map
          (fun i => { i with stock_level := i.stock_level - q }) := by
  induction inv with
  | nil => rfl
  | cons i inv ih =>
    by_cases h : i.art_number = p
    · simp [adjust_stock, List.find?, h]
    · have hb : (i.art_number == p) = false := by simp [h]
      simp only [adjust_stock, List.map_cons]
      rw [if_neg h]
      simp only [List.find?, hb]
      exact ih

theorem adjust_stock_absent (p : String) (q : ℤ) :
    ∀ inv : List InventoryItem, (∀ i ∈ inv, i.art_number ≠ p) →
      adjust_stock p q inv = inv
  | [], _ => rfl
  | i :: inv, h => by
    have hi : i.art_number ≠ p := h i (List.mem_cons_self i inv)
    have ht := adjust_stock_absent p q inv
      fun x hx => h x (List.mem_cons_of_mem i hx)
    simp only [adjust_stock, List.map_cons] at *
    rw [if_neg hi, ht]

theorem adjust_stock_mem_of_ne (p : String) (q : ℤ) (inv : List InventoryItem)
    (i : InventoryItem) (hi : i ∈ inv) (hne : i.art_number ≠ p) :
    i ∈ adjust_stock p q inv := by
  unfold adjust_stock
  refine List.mem_map.2 ⟨i, hi, ?_⟩
  simp [hne]

/-! ## Claim C5 -/

/-- Claim C5: saving one spare usage record with part number `p` and
quantity `q` appends the usage row and decrements that part's inventory row
by exactly `q` when `p` is present; when `p` is absent from the inventory
the stock adjustment is a silent no-op (the inventory is unchanged and no
error arises), and rows with other part numbers are never touched. -/
theorem c5_spare_usage_stock (db : ShiftDb) (rid : ℕ) (s : ShiftSessionSpare) :
    (List.find? (fun i => i.art_number == s.art_number)
        (shiftlog_save_spare rid s db).spares_inventory
      = (List.find? (fun i => i.art_number == s.art_number)
            db.spares_inventory).map
          (fun i => { i with stock_level := i.stock_level - (s.quantity : ℤ) })) ∧
    ((∀ i ∈ db.spares_inventory, i.art_number ≠ s.art_number) →
      (shiftlog_save_spare rid s db).spares_inventory = db.spares_inventory) ∧
    (∀ i ∈ db.spares_inventory, i.art_number ≠ s.art_number →
      i ∈ (shiftlog_save_spare rid s db).spares_inventory) ∧
    (shiftlog_save_spare rid s db).spares_used
      = db.spares_used ++ [slTagSpare rid s] := by
  refine ⟨?_, ?_, ?_, rfl⟩
  · exact find_adjust_stock s.art_number (s.quantity : ℤ) db.spares_inventory
  · intro h
    exact adjust_stock_absent s.art_number (s.quantity : ℤ)
      db.spares_inventory h
  · intro i hi hne
    exact adjust_stock_mem_of_ne s.art_number (s.quantity : ℤ)
      db.spares_inventory i hi hne

/-- Witness for C5: part `P1` with stock 10 drops to 7 after a usage of 3,
and the usage row is recorded. -/
theorem c5_spare_usage_stock_witness :
    List.find? (fun i => i.art_number == "P1")
        (shiftlog_save_spare 1 slspare1 shiftDb0).spares_inventory
      = some ⟨"P1", "bearing", "A1", "General", 7, 2⟩ ∧
    (shiftlog_save_spare 1 slspare1 shiftDb0).spares_used
      = [⟨1, "P1", "bearing", "A1", 3, "Disposed", 2⟩] := by
  have h := c5_spare_usage_stock shiftDb0 1 slspare1
  exact ⟨h.1.trans (by decide), h.2.2.2.trans (by decide)⟩

/-! ## Claim C8 -/

/-- Claim C8: at the start of a new (non-edit) session the auto-logic
injects exactly the stored reactive tasks whose status is not `Complete` —
across all historical reports — into the session's reactive list, tagging
each description with the `[CARRY OVER]` marker; the import runs once per
session (a second run is the identity). -/
theorem c8_carry_over_import (db : AppDb) (sched : List PpmScheduleRow)
    (today : String) (s : AppSession)
    (h1 : s.carry_over_checked = false) (h2 : s.editing_report_id = none) :
    (∀ t, t ∈ (show_shift_log_auto db sched today s).reactives ↔
      t ∈ s.reactives ∨
      ∃ r ∈ db.reactives, r.status ≠ "Complete" ∧
        t = ⟨r.asset, r.time_called, r.time_back, r.fault, r.engineers,
             "[CARRY OVER] " ++ r.description, r.downtime, r.status⟩) ∧
    (show_shift_log_auto db sched today s).carry_over_checked = true ∧
    show_shift_log_auto db sched today (show_shift_log_auto db sched today s)
      = show_shift_log_auto db sched today s := by
  have hc : show_shift_log_auto db sched today s
      = { s with reactives := s.reactives ++ check_carry_over_tasks db,
                 ppms := s.ppms ++ check_smart_ppms sched today,
                 carry_over_checked := true } := by
    unfold show_shift_log_auto
    rw [if_pos ⟨h1, h2⟩]
  refine ⟨?_, by rw [hc], ?_⟩
  · intro t
    rw [hc]
    simp only [List.mem_append, check_carry_over_tasks, List.mem_map,
               List.mem_filter]
    constructor
    · rintro (ht | ⟨r, ⟨hr, hst⟩, rfl⟩)
      · exact Or.inl ht
      · exact Or.inr ⟨r, hr, by simpa using hst, rfl⟩
    · rintro (ht | ⟨r, hr, hst, rfl⟩)
      · exact Or.inl ht
      · exact Or.inr ⟨r, ⟨hr, by simpa using hst⟩, rfl⟩
  · rw [hc]
    simp [show_shift_log_auto]

/-- Witness for C8: from a database with one `Complete` and one
`In Progress` stored task, a fresh session imports exactly the open task,
tagged. -/
theorem c8_carry_over_import_witness :
    (show_shift_log_auto dbCarry schedDaily "Friday" sess0).carry_over_checked
      = true ∧
    (show_shift_log_auto dbCarry schedDaily "Friday" sess0).reactives
      = [⟨"Palletiser #1", "10:00:00", "10:30:00", "Mechanical", 2,
          "[CARRY OVER] belt", 30, "In Progress"⟩] := by
  have h := c8_carry_over_import dbCarry schedDaily "Friday" sess0 rfl rfl
  exact ⟨h.2.1, by decide⟩

/-! ## Claim C9 -/

/-- Claim C9 (code bug): on inventory import a duplicate part number is
indeed resolved by overwrite (last one wins, no error), but the `duplicates`
counter the success message surfaces is always 0 — the
`except sqlite3.IntegrityError` branch is unreachable under
`INSERT OR REPLACE` — even though one duplicate was replaced in this run
(the count following the spec's words is 1). -/
theorem c9_duplicate_count_always_zero :
    (reload_spares_from_csv csvDup inv0).duplicates = 0 ∧
    (reload_spares_from_csv csvDup inv0).count = 2 ∧
    (reload_spares_from_csv csvDup inv0).inventory
      = [⟨"P1", "d2", "l2", "General", 10, 2⟩] ∧
    specDuplicateCount csvDup [] = 1 := by
  refine ⟨rfl, rfl, by decide, by decide⟩

/-! ## Claim C10 -/

theorem reload_step_inventory (acc : ReloadResult) (r : CsvSpareRow) :
    (reload_step acc r).inventory
      = if csvRowValid r then
          insert_or_replace_inventory
            ⟨r.part_number, r.description, r.location, "General", 10, 2⟩
            acc.inventory
        else acc.inventory := by
  unfold reload_step
  by_cases hv : csvRowValid r <;> simp [hv]

theorem reload_foldl_defaults :
    ∀ (rows : List CsvSpareRow) (acc : ReloadResult),
      (∀ it ∈ acc.inventory, it.category = "General" ∧ it.stock_level = 10 ∧
        it.min_stock_level = 2) →
      ∀ it ∈ (rows.foldl reload_step acc).inventory,
        it.category = "General" ∧ it.stock_level = 10 ∧
          it.min_stock_level = 2
  | [], acc, hacc => by simpa using hacc
  | r :: rows, acc, hacc => by
    rw [List.foldl_cons]
    refine reload_foldl_defaults rows (reload_step acc r) ?_
    intro it hit
    rw [reload_step_inventory] at hit
    by_cases hv : csvRowValid r
    · rw [if_pos hv] at hit
      unfold insert_or_replace_inventory at hit
      rcases List.mem_append.1 hit with h | h
      · exact hacc it (List.mem_filter.1 h).1
      · rcases List.mem_singleton.1 h with rfl
        exact ⟨rfl, rfl, rfl⟩
    · rw [if_neg hv] at hit
      exact hacc it hit

theorem reload_foldl_provenance :
    ∀ (rows : List CsvSpareRow) (acc : ReloadResult),
      ∀ it ∈ (rows.foldl reload_step acc).inventory,
        it ∈ acc.inventory ∨
        ∃ r ∈ rows, csvRowValid r = true ∧
          it = ⟨r.part_number, r.description, r.location, "General", 10, 2⟩
  | [], _, it, hit => Or.inl hit
  | r :: rows, acc, it, hit => by
    rw [List.foldl_cons] at hit
    rcases reload_foldl_provenance rows (reload_step acc r) it hit with
      h | ⟨r2, hr2, hv2, he⟩
    · rw [reload_step_inventory] at h
      by_cases hv : csvRowValid r
      · rw [if_pos hv] at h
        unfold insert_or_replace_inventory at h
        rcases List.mem_append.1 h with h | h
        · exact Or.inl (List.mem_filter.1 h).1
        · rcases List.mem_singleton.1 h with rfl
          exact Or.inr ⟨r, List.mem_cons_self r rows, hv, rfl⟩
      · rw [if_neg hv] at h
        exact Or.inl h
    · exact Or.inr ⟨r2, List.mem_cons_of_mem r hr2, hv2, he⟩

theorem insert_or_replace_key_mem (it : InventoryItem)
    (inv : List InventoryItem) (k : String)
    (h : ∃ j ∈ inv, j.art_number = k) :
    ∃ j ∈ insert_or_replace_inventory it inv, j.art_number = k := by
  by_cases hk : it.art_number = k
  · exact ⟨it, List.mem_append_right _ (List.mem_singleton_self it), hk⟩
  · obtain ⟨j, hj, hjk⟩ := h
    have hne : j.art_number ≠ it.art_number := by
      rw [hjk]
      exact fun he => hk he.symm
    refine ⟨j, List.mem_append_left _ (List.mem_filter.2 ⟨hj, ?_⟩), hjk⟩
    simpa using hne

theorem reload_foldl_key_mono :
    ∀ (rows : List CsvSpareRow) (acc : ReloadResult) (k : String),
      (∃ j ∈ acc.inventory, j.art_number = k) →
      ∃ j ∈ (rows.foldl reload_step acc).inventory, j.art_number = k
  | [], _, _, h => h
  | r :: rows, acc, k, h => by
    rw [List.foldl_cons]
    refine reload_foldl_key_mono rows (reload_step acc r) k ?_
    rw [reload_step_inventory]
    by_cases hv : csvRowValid r
    · rw [if_pos hv]
      exact insert_or_replace_key_mem _ acc.inventory k h
    · rw [if_neg hv]
      exact h

theorem reload_foldl_coverage :
    ∀ (rows : List CsvSpareRow) (acc : ReloadResult),
      ∀ r ∈ rows, csvRowValid r = true →
        ∃ j ∈ (rows.foldl reload_step acc).inventory,
          j.art_number = r.part_number
  | [], _, r, hr, _ => absurd hr (List.not_mem_nil r)
  | r0 :: rows, acc, r, hr, hv => by
    rw [List.foldl_cons]
    rcases List.mem_cons.1 hr with rfl | hr2
    · refine reload_foldl_key_mono rows (reload_step acc r) r.part_number ?_
      rw [reload_step_inventory, if_pos hv]
      exact ⟨⟨r.part_number, r.description, r.location, "General", 10, 2⟩,
        List.mem_append_right _ (List.mem_singleton_self _), rfl⟩
    · exact reload_foldl_coverage rows (reload_step acc r0) r hr2 hv

/-- Claim C10: reloading the inventory from the catalog first discards the
entire previous inventory (the result does not depend on it at all) and
rebuilds it row by row: every resulting item carries the fixed defaults
`category='General'`, `stock_level=10`, `min_stock_level=2` and stems from a
valid catalog row, and every valid catalog row's part number is present in
the rebuilt table — so all previously accumulated stock levels and
thresholds are discarded. -/
theorem c10_reload_replaces_with_defaults (rows : List CsvSpareRow)
    (inv inv2 : List InventoryItem) :
    reload_spares_from_csv rows inv = reload_spares_from_csv rows inv2 ∧
    (∀ it ∈ (reload_spares_from_csv rows inv).inventory,
      it.category = "General" ∧ it.stock_level = 10 ∧
        it.min_stock_level = 2) ∧
    (∀ it ∈ (reload_spares_from_csv rows inv).inventory,
      ∃ r ∈ rows, csvRowValid r = true ∧
        it = ⟨r.part_number, r.description, r.location, "General", 10, 2⟩) ∧
    (∀ r ∈ rows, csvRowValid r = true →
      ∃ j ∈ (reload_spares_from_csv rows inv).inventory,
        j.art_number = r.part_number) := by
  refine ⟨rfl, ?_, ?_, ?_⟩
  · exact reload_foldl_defaults rows ⟨[], 0, 0⟩ (by simp)
  · intro it hit
    rcases reload_foldl_provenance rows ⟨[], 0, 0⟩ it hit with h | h
    · simp at h
    · exact h
  · intro r hr hv
    exact reload_foldl_coverage rows ⟨[], 0, 0⟩ r hr hv

/-- Witness for C10 at a concrete catalog with one valid and one invalid
row, against a non-empty previous inventory. -/
theorem c10_reload_replaces_with_defaults_witness :
    reload_spares_from_csv csvMixed inv0 = reload_spares_from_csv csvMixed [] ∧
    (∀ it ∈ (reload_spares_from_csv csvMixed inv0).inventory,
      it.category = "General" ∧ it.stock_level = 10 ∧
        it.min_stock_level = 2) :=
  ⟨(c10_reload_replaces_with_defaults csvMixed inv0 []).1,
   (c10_reload_replaces_with_defaults csvMixed inv0 []).2.1⟩

/-! ## Claim C7 -/

/-- Counterexample to C7 as stated: on an aggregate whose child lists are
all empty, the workbook generator still writes the reactive-tasks section
title and its column-header row, the PPM section title and the spares
section title — it renders empty tables instead of omitting the sections
entirely. -/
theorem c7_counterexample_empty_sections_rendered :
    (8, 1, XVal.s "Reactive Tasks") ∈ generate_excel_report slhdr0 [] [] [] [] ∧
    (9, 1, XVal.s "Time Called") ∈ generate_excel_report slhdr0 [] [] [] [] ∧
    (12, 1, XVal.s "PPM Tasks") ∈ generate_excel_report slhdr0 [] [] [] [] ∧
    (15, 1, XVal.s "Spares Used") ∈ generate_excel_report slhdr0 [] [] [] [] := by
  refine ⟨?_, ?_, ?_, ?_⟩ <;> decide

/-- Claim C7 (corrected): both generators are total, so an all-empty
aggregate never raises.  The `app.py` paginated document omits the
reactive-tasks section entirely when the list is empty (exactly the three
header elements; five once at least one reactive exists), but the workbook
does not omit its sections: with all child lists empty its output is
exactly the fixed skeleton — header block plus every section title and
column-header row, including the reactive-tasks title — with no data
cells. -/
theorem c7_empty_aggregate_sections (eid : Option ℕ)
    (sd : List (String × String)) (h : ShiftLogHeader) (r0 : SessionReactive)
    (rs : List SessionReactive) :
    (app_generate_pdf eid sd []).length = 3 ∧
    (app_generate_pdf eid sd (r0 :: rs)).length = 5 ∧
    generate_excel_report h [] [] [] []
      = excelHeaderCells h ++ [(8, 1, XVal.s "Reactive Tasks")]
        ++ excelReactiveHeaderCells ++ [(12, 1, XVal.s "PPM Tasks")]
        ++ [(15, 1, XVal.s "Spares Used")] ++ excelSpareHeads1 16
        ++ excelSpareHeads2 17 ∧
    (8, 1, XVal.s "Reactive Tasks") ∈ generate_excel_report h [] [] [] [] := by
  refine ⟨?_, ?_, ?_, ?_⟩
  · simp [app_generate_pdf]
  · simp [app_generate_pdf]
  · simp [generate_excel_report, excelReactiveRows, excelPpmRows,
          excelSpareRows]
  · simp [generate_excel_report, excelReactiveRows, excelPpmRows,
          excelSpareRows]

/-- Witness for C7's amended statement at concrete inputs. -/
theorem c7_empty_aggregate_sections_witness :
    (app_generate_pdf none [("date", "2026-10-10")] []).length = 3 ∧
    (8, 1, XVal.s "Reactive Tasks") ∈ generate_excel_report slhdr0 [] [] [] [] :=
  ⟨(c7_empty_aggregate_sections none [("date", "2026-10-10")] slhdr0 react1 []).1,
   (c7_empty_aggregate_sections none [("date", "2026-10-10")] slhdr0 react1 []).2.2.2⟩

end ShiftOps
